import Mathlib

/-!
Shallow embedding of the iced text-editor application (src/src/main.rs):
the editor state, the message vocabulary, the pure transition function
`Editor.update`, the startup constructor `Editor.new`, the status-bar string
computed by `Editor.view`, and the asynchronous save pipeline `save_file`,
instrumented with an explicit gateway-event trace.
-/

namespace IcedTextEditor

/-- Operating-system I/O failure classification, mirroring the
`std::io::ErrorKind` values the program can store in `Error::IOFailed`.
The Rust type has more variants; the ones below are representative, and
`descr` mirrors the `Display` text used by `error.to_string()` in the view. -/
inductive IOErrorKind where
  | notFound
  | permissionDenied
  | alreadyExists
  | otherError
deriving DecidableEq

/-- The display text of an `io::ErrorKind`, as pushed onto the status line. -/
def IOErrorKind.descr : IOErrorKind → String
  | .notFound => "entity not found"
  | .permissionDenied => "permission denied"
  | .alreadyExists => "entity already exists"
  | .otherError => "other error"

/-- The error taxonomy of the program (enum Error in main.rs). -/
inductive Error where
  | DialogClosed
  | IOFailed (kind : IOErrorKind)
deriving DecidableEq

/-- The highlighter theme set (iced highlighter::Theme, an external
collaborator; a fixed enumerable set whose exact members do not matter
to the state machine). -/
inductive HTheme where
  | SolarizedDark
  | Base16Eighties
  | Base16Mocha
  | Base16Ocean
  | InspiredGitHub
deriving DecidableEq

/-- A text-editor action (iced text\x5feditor::Action, external collaborator).
The state machine inspects only `action.is\x5fedit()`, modelled by the flag
`isEdit`; the buffer effect of `content.edit(action)` is modelled by an
opaque function on the buffer text. -/
structure Action where
  isEdit : Bool
  applyTo : String → String

/-- The editor state (struct Editor in main.rs). The document buffer is
modelled by its text; paths are modelled as strings. -/
structure Editor where
  content : String
  error : Option Error
  path : Option String
  saved : Bool
  theme : HTheme
deriving DecidableEq

/-- The message vocabulary (enum Message in main.rs). `Open` is RequestOpen,
`New` is RequestNew, `Save` is RequestSave, `NewTheme` is SelectTheme. -/
inductive Message where
  | Edit (action : Action)
  | Open
  | FileOpened (result : Except Error (String × String))
  | New
  | Save
  | FileSaved (result : Except Error String)
  | NewTheme (t : HTheme)

/-- The command request returned by one transition: `Command::none()` or a
single `Command::perform` of one asynchronous pipeline operation. -/
inductive Cmd where
  | none
  | performPickFile
  | performLoadFile (path : String)
  | performSaveFile (path : Option String) (text : String)
deriving DecidableEq

/-- The contents of src/main.rs embedded at build time by
include\x5fstr("main.rs") and used as the initial buffer text. -/
def mainRsSource : String :=
  "use std::io;\nuse std::path::\x7bPath, PathBuf\x7d;\nuse std::sync::Arc;\nuse iced::\x7bElement, Length, Application, Settings, Theme, executor, Command, Font, theme, Subscription, keyboard\x7d;\nuse iced::widget::\x7bcontainer, text, text\x5feditor, column, row, horizontal\x5fspace, button, tooltip, pick\x5flist\x7d;\nuse iced::highlighter::\x7bself, Highlighter\x7d;\n\nfn main() -> iced::Result\x7b\n    Editor::run(Settings \x7b\n        default\x5ffont: Font::MONOSPACE,\n        fonts: vec![include\x5fbytes!(\"../fonts/editor-icons.ttf\").as\x5fslice().into()],\n        ..Settings::default()\x7d)\n\x7d\n\nstruct Editor \x7b\n    content: text\x5feditor::Content,\n    error: Option<Error>,\n    path: Option<PathBuf>,\n    saved: bool,\n    theme: highlighter::Theme\n\x7d\n\n\x23[derive(Debug, Clone)]\nenum Message \x7b\n    Edit(text\x5feditor::Action),\n    Open,\n    FileOpened(Result<(PathBuf, Arc<String>), Error>),\n    New,\n    Save,\n    FileSaved(Result<PathBuf, Error>),\n    NewTheme(highlighter::Theme)\n\x7d\n\nimpl Application for Editor \x7b\n    type Executor = executor::Default;\n    type Message = Message;\n    type Theme = Theme;\n    type Flags = ();\n\n    fn new( \x5fflags: Self::Flags) -> (Self, Command<Message>) \x7b\n        (Self \x7b\n            path: None,\n            content: text\x5feditor::Content::with(include\x5fstr!(\"main.rs\")),\n            error: None,\n            saved: true,\n            theme: highlighter::Theme::SolarizedDark,\n        \x7d, Command::perform(load\x5ffile(\n            default\x5ffile()\n            ), Message::FileOpened)\n        )\n    \x7d\n\n    fn title(&self) -> String \x7b\n        \"Text Editor\".to\x5fstring()\n    \x7d\n\n    fn update(&mut self, message: Self::Message) -> Command<Message> \x7b\n        match message \x7b\n\n            Message::Edit(action) => \x7b\n                self.content.edit(action.clone());\n                self.error = None;\n                if action.is\x5fedit() \x7b\n                    self.saved = false;\n                \x7d\n                Command::none()\n            \x7d\n\n            Message::FileOpened(Ok((path, content))) => \x7b\n                self.path = Some(path);\n                self.content = text\x5feditor::Content::with(content.as\x5fstr());\n                self.saved = true;\n                Command::none()\n            \x7d\n\n            Message::FileOpened(Err(error)) => \x7b\n                self.error = Some(error);\n                Command::none()\n            \x7d\n\n            Message::Open => Command::perform(pick\x5ffile(), Message::FileOpened),\n\n            Message::New => \x7b\n                self.path = None;\n                self.content = text\x5feditor::Content::new();\n                self.saved = false;\n                Command::none()\n            \x7d\n\n            Message::Save => \x7b\n                let text = self.content.text();\n\n                Command::perform(save\x5ffile(self.path.clone(), text), Message::FileSaved)\n            \x7d\n\n            Message::FileSaved(Ok(path)) => \x7b\n                self.path = Some(path);\n                self.saved = true;\n                Command::none()\n            \x7d\n\n            Message::FileSaved(Err(error)) => \x7b\n                self.error = Some(error);\n                Command::none()\n            \x7d\n\n            Message::NewTheme(theme) => \x7b\n                self.theme = theme;\n                Command::none()\n            \x7d\n\n        \x7d\n    \x7d\n\n    fn subscription(&self) -> Subscription<Self::Message> \x7b\n        keyboard::on\x5fkey\x5fpress(|key\x5fcode, modifiers| \x7b\n            match key\x5fcode \x7b\n                keyboard::KeyCode::S if modifiers.command() => Some(Message::Save),\n                \x5f => None,\n            \x7d\n        \x7d)\n    \x7d\n    \n    fn view(&self) -> Element<\x27\x5f, Self::Message> \x7b\n        let controls = row![\n            action(new\x5ficon(), \"New File\", Some(Message::New)),\n            action(open\x5ficon(), \"open File\", Some(Message::Open)),\n            action(save\x5ficon(), \"Save File\", if self.saved \x7b None \x7d else \x7b Some(Message::Save) \x7d),\n            horizontal\x5fspace(Length::Fill),\n            pick\x5flist(highlighter::Theme::ALL, Some(self.theme), Message::NewTheme)\n        ].spacing(10);\n\n        let input = text\x5feditor(&self.content)\n            .on\x5fedit(Message::Edit)\n            .highlight::<Highlighter>(highlighter::Settings \x7b\n                theme: self.theme,\n                extension: self.path.as\x5fref()\n                    .and\x5fthen(|path| path.extension()?.to\x5fstr())\n                    .unwrap\x5for(\"rs\")\n                    .to\x5fstring()\n            \x7d, |highlight, \x5ftheme | highlight.to\x5fformat());\n\n        let status\x5fbar = \x7b\n\n            let position = \x7b\n                let (line, column) = self.content.cursor\x5fposition();\n\n                text(format!(\"\x7b\x7d:\x7b\x7d\", line +1, column + 1))\n            \x7d;\n\n            let status = \x7b\n\n                let mut string = String::new();\n\n                if let Some(Error::IOFailed(error)) = self.error.as\x5fref() \x7b\n                    string.push\x5fstr(error.to\x5fstring().as\x5fstr());\n                \x7d else \x7b\n                    match self.path.as\x5fderef().and\x5fthen(Path::to\x5fstr) \x7b\n                        Some(path) => string.push\x5fstr(path),\n                        None => string.push\x5fstr(\"New File\"),\n                    \x7d\n                \x7d\n\n                if !self.saved\x7b\n                    string.push\x5fstr(\" *\");\n                \x7d\n\n                text(string).size(14)\n\n            \x7d;\n\n            row![status, horizontal\x5fspace(Length::Fill), position]\n\n        \x7d;\n\n        container(column![controls, input, status\x5fbar].spacing(10))\n            .padding(10).into()\n    \x7d\n\n    fn theme(&self) -> Theme \x7b\n        if self.theme.is\x5fdark() \x7b\n            Theme::Dark\n        \x7delse \x7b\n            Theme::Light\n        \x7d\n    \x7d\n\x7d\n\nfn action<\x27a>(content: Element<\x27a, Message>, label: &str, on\x5fpress: Option<Message>) -> Element<\x27a, Message>\x7b\n\n    let is\x5fdisabled = on\x5fpress.is\x5fnone();\n\n    tooltip(button(\n        container(content)\n            .width(30).center\x5fx())\n        .on\x5fpress\x5fmaybe(on\x5fpress)\n                .style(\n                    if is\x5fdisabled \x7b\n                        theme::Button::Secondary\n                    \x7delse \x7b\n                        theme::Button::Primary\n                    \x7d\n                )\n        .padding([5, 10]\n        ),\n            label,\n            tooltip::Position::FollowCursor\n    )\n        .style(theme::Container::Box)\n        .into()\n\x7d\n\nfn new\x5ficon<\x27a>() -> Element<\x27a, Message>\x7b\n    icon(\x27\\u\x7bF0F6\x7d\x27)\n\x7d\n\nfn save\x5ficon<\x27a>() -> Element<\x27a, Message>\x7b\n    icon(\x27\\u\x7bE800\x7d\x27)\n\x7d\n\nfn open\x5ficon<\x27a>() -> Element<\x27a, Message>\x7b\n    icon(\x27\\u\x7bF115\x7d\x27)\n\x7d\n\nfn icon<\x27a>(codepoint: char) -> Element<\x27a, Message>\x7b\n    const ICON\x5fFONT: Font = Font::with\x5fname(\"editor-icons\");\n\n    text(codepoint).font(ICON\x5fFONT).into()\n\x7d\n\nfn default\x5ffile() -> PathBuf \x7b\n    PathBuf::from(format!(\"\x7b\x7d/src/main.rs\", env!(\"CARGO\x5fMANIFEST\x5fDIR\")).as\x5fstr())\n\x7d\n\nasync fn pick\x5ffile() -> Result<(PathBuf, Arc<String>), Error> \x7b\n    let handle = rfd::AsyncFileDialog::new()\n        .set\x5ftitle(\"Choose a text file...\")\n        .pick\x5ffile()\n        .await\n        .ok\x5for(Error::DialogClosed)?;\n\n    load\x5ffile(handle.path().to\x5fpath\x5fbuf()).await\n\x7d\n\nasync fn load\x5ffile(path: PathBuf) -> Result<(PathBuf, Arc<String>), Error> \x7b\n    let contents = tokio::fs::read\x5fto\x5fstring(&path)\n        .await\n        .map(Arc::new)\n        .map\x5ferr(|error| error.kind())\n        .map\x5ferr(Error::IOFailed)?;\n\n    Ok((path, contents))\n\x7d\n\nasync fn save\x5ffile(path: Option<PathBuf>, text: String) -> Result<PathBuf, Error> \x7b\n    let path = if let Some(path) = path \x7b path \x7d else \x7b\n        rfd::AsyncFileDialog::new()\n            .set\x5ftitle(\"Choose a file name...\")\n            .set\x5ffile\x5fname(\"new.txt\")\n            .save\x5ffile()\n            .await\n            .ok\x5for(Error::DialogClosed)\n            .map(|handle| handle.path().to\x5fowned())?\n    \x7d;\n\n    tokio::fs::write(&path, text).await.map\x5ferr(|error| Error::IOFailed(error.kind()))?;\n\n    Ok(path)\n\x7d\n\n\x23[derive(Debug, Clone)]\nenum Error \x7b\n    DialogClosed,\n    IOFailed(io::ErrorKind),\n\x7d"

/-- default\x5ffile(): the fixed build-time default path, formatted from the
CARGO\x5fMANIFEST\x5fDIR build-time environment value, which is passed here
as the parameter `manifestDir`. -/
def default_file (manifestDir : String) : String :=
  manifestDir ++ "/src/main.rs"

/-- Editor::new: the startup state and the startup command (a load of the
default file). -/
def Editor.new (manifestDir : String) : Editor × Cmd :=
  ({ path := Option.none
     content := mainRsSource
     error := Option.none
     saved := true
     theme := HTheme.SolarizedDark },
   Cmd.performLoadFile (default_file manifestDir))

/-- Editor::update: the pure transition function, returning the next state
and the scheduled command. -/
def update (s : Editor) (m : Message) : Editor × Cmd :=
  match m with
  | .Edit action =>
      ({ s with
          content := action.applyTo s.content
          error := Option.none
          saved := if action.isEdit then false else s.saved },
       Cmd.none)
  | .FileOpened (.ok (path, text)) =>
      ({ s with path := some path, content := text, saved := true }, Cmd.none)
  | .FileOpened (.error e) =>
      ({ s with error := some e }, Cmd.none)
  | .Open => (s, Cmd.performPickFile)
  | .New =>
      ({ s with path := Option.none, content := "", saved := false }, Cmd.none)
  | .Save => (s, Cmd.performSaveFile s.path s.content)
  | .FileSaved (.ok path) =>
      ({ s with path := some path, saved := true }, Cmd.none)
  | .FileSaved (.error e) =>
      ({ s with error := some e }, Cmd.none)
  | .NewTheme t => ({ s with theme := t }, Cmd.none)

/-- Fold a list of messages through the transition function, discarding the
scheduled commands (they re-enter the loop only as later messages). -/
def applyMsgs (s : Editor) (ms : List Message) : Editor :=
  ms.foldl (fun st m => (update st m).1) s

/-- A state is reachable when some message sequence leads to it from the
startup state. -/
def Reachable (manifestDir : String) (s : Editor) : Prop :=
  ∃ ms : List Message, applyMsgs (Editor.new manifestDir).1 ms = s

/-- The status text computed by Editor::view for the status bar: an
IOFailed error description replaces the path text (or "New File"), and
" *" is appended while unsaved. -/
def statusString (s : Editor) : String :=
  let string := ""
  let string :=
    match s.error with
    | some (.IOFailed e) => string ++ e.descr
    | _ =>
      match s.path with
      | some path => string ++ path
      | Option.none => string ++ "New File"
  if !s.saved then string ++ " *" else string

/-- The dialog/filesystem gateway, modelled by the outcomes it would give:
the save-as dialog result (`none` = user cancelled) and the result of each
attempted write. -/
structure Gateway where
  pickSave : Option String
  writeRes : String → String → Except IOErrorKind Unit

/-- An observable gateway interaction performed by a pipeline operation. -/
inductive GEvent where
  | dialogAsked
  | wrote (path : String) (text : String)
deriving DecidableEq

/-- Whether a gateway event is a write attempt. -/
def GEvent.isWrite : GEvent → Bool
  | .wrote _ _ => true
  | _ => false

/-- save\x5ffile(path, text): resolve the target path (directly, or through
the save-as dialog when absent, failing with DialogClosed on cancel), then
write the text, mapping a write failure to IOFailed. Returns the result
together with the trace of gateway interactions performed. -/
def save_file (g : Gateway) (pathOpt : Option String) (text : String) :
    Except Error String × List GEvent :=
  match pathOpt with
  | some path =>
    match g.writeRes path text with
    | .ok _ => (.ok path, [.wrote path text])
    | .error e => (.error (.IOFailed e), [.wrote path text])
  | Option.none =>
    match g.pickSave with
    | Option.none => (.error .DialogClosed, [.dialogAsked])
    | some path =>
      match g.writeRes path text with
      | .ok _ => (.ok path, [.dialogAsked, .wrote path text])
      | .error e => (.error (.IOFailed e), [.dialogAsked, .wrote path text])

/-- Command::perform(save\x5ffile(..), Message::FileSaved): the completed
save pipeline feeds exactly one message back into the loop. -/
def runSave (g : Gateway) (pathOpt : Option String) (text : String) :
    List Message :=
  [Message.FileSaved (save_file g pathOpt text).1]

/-- Whether a message is a successful load or a successful save completion,
the only two messages whose transitions set `saved := true`. -/
def Message.isSuccess : Message → Bool
  | .FileOpened (.ok _) => true
  | .FileSaved (.ok _) => true
  | _ => false

/-- Whether a message is an Edit message. -/
def Message.isEditMsg : Message → Bool
  | .Edit _ => true
  | _ => false



theorem saved_false_step (s : Editor) (m : Message) (hm : m.isSuccess = false)
    (hs : s.saved = false) : (update s m).1.saved = false := by
  cases m with
  | Edit a =>
    simp only [update]
    cases h : a.isEdit <;> simp [h, hs]
  | Open => exact hs
  | FileOpened r =>
    cases r with
    | ok v => simp [Message.isSuccess] at hm
    | error e => exact hs
  | New => rfl
  | Save => exact hs
  | FileSaved r =>
    cases r with
    | ok v => simp [Message.isSuccess] at hm
    | error e => exact hs
  | NewTheme t => exact hs

theorem saved_false_run (s : Editor) (ms : List Message)
    (hms : ∀ m ∈ ms, m.isSuccess = false) (hs : s.saved = false) :
    (applyMsgs s ms).saved = false := by
  induction ms generalizing s with
  | nil => exact hs
  | cons m rest ih =>
    have h1 : (update s m).1.saved = false :=
      saved_false_step s m (hms m (List.mem_cons_self m rest)) hs
    have h2 : ∀ x ∈ rest, Message.isSuccess x = false := by
      intro x hx
      exact hms x (List.mem_cons_of_mem m hx)
    simpa [applyMsgs] using ih (update s m).1 h2 h1

/-- C1: immediately after a content-changing Edit the state is unsaved; any
following message sequence containing no successful load (FileOpened Ok) and
no successful save (FileSaved Ok) keeps it unsaved; a transition can turn
`saved` from false to true only on such a success message; and each success
message does set `saved := true`. Proved over all states, hence over all
reachable ones. -/
theorem saved_invariant (s : Editor) (a : Action) (ms : List Message)
    (ha : a.isEdit = true) (hms : ∀ m ∈ ms, m.isSuccess = false) :
    (update s (.Edit a)).1.saved = false ∧
    (applyMsgs (update s (.Edit a)).1 ms).saved = false ∧
    (∀ (s2 : Editor) (m : Message), (update s2 m).1.saved = true →
      s2.saved = true ∨ m.isSuccess = true) ∧
    (∀ (s2 : Editor) (p t : String),
      (update s2 (.FileOpened (.ok (p, t)))).1.saved = true) ∧
    (∀ (s2 : Editor) (p : String), (update s2 (.FileSaved (.ok p))).1.saved = true) := by
  have hfalse : (update s (.Edit a)).1.saved = false := by
    simp [update, ha]
  refine ⟨hfalse, saved_false_run _ ms hms hfalse, ?_, fun s2 p t => rfl, fun s2 p => rfl⟩
  intro s2 m hm
  by_cases hsucc : m.isSuccess = true
  · exact Or.inr hsucc
  · left
    by_contra hneq
    have h2 : s2.saved = false := by
      cases h3 : s2.saved
      · rfl
      · exact absurd h3 hneq
    have := saved_false_step s2 m (by simpa using hsucc) h2
    rw [hm] at this
    exact Bool.true_eq_false.mp this

theorem saved_invariant_witness :
    (Action.mk true id).isEdit = true ∧
    (∀ m ∈ [Message.Open, Message.New], Message.isSuccess m = false) ∧
    (applyMsgs (update
        { content := ""
          error := Option.none
          path := Option.none
          saved := true
          theme := HTheme.SolarizedDark } (.Edit (Action.mk true id))).1
      [Message.Open, Message.New]).saved = false := by
  refine ⟨rfl, ?_, ?_⟩
  · intro m hm
    rcases List.mem_cons.mp hm with h | h
    · subst h; rfl
    · rcases List.mem_cons.mp h with h2 | h2
      · subst h2; rfl
      · exact absurd h2 (List.not_mem_nil m)
  · exact (saved_invariant
      { content := ""
        error := Option.none
        path := Option.none
        saved := true
        theme := HTheme.SolarizedDark } (Action.mk true id)
      [Message.Open, Message.New] rfl
      (by
        intro m hm
        rcases List.mem_cons.mp hm with h | h
        · subst h; rfl
        · rcases List.mem_cons.mp h with h2 | h2
          · subst h2; rfl
          · exact absurd h2 (List.not_mem_nil m))).2.1

/-- C2 counterexample: from the startup state, a cancelled open dialog leaves
a recorded error, and a later successful open keeps that error: the state
after FileOpened(Ok) is reachable with `error` not None, against the claim
that FileOpened(Ok) yields `error = None` in every reachable state. -/
theorem fileOpened_ok_error_cex :
    Reachable "d" (applyMsgs (Editor.new "d").1
      [Message.FileOpened (.error Error.DialogClosed)]) ∧
    (update (applyMsgs (Editor.new "d").1
        [Message.FileOpened (.error Error.DialogClosed)])
      (Message.FileOpened (.ok ("p", "t")))).1.error ≠ Option.none := by
  refine ⟨⟨[Message.FileOpened (.error Error.DialogClosed)], rfl⟩, ?_⟩
  intro h
  simp [applyMsgs, update, Editor.new] at h

/-- C2 (amended): for every state, FileOpened(Ok((p, t))) yields
path = Some p, document text t, saved = true, schedules no command, and
leaves `error` unchanged (so `error = None` exactly when it already was). -/
theorem fileOpened_ok_spec (s : Editor) (p t : String) :
    (update s (.FileOpened (.ok (p, t)))).1.path = some p ∧
    (update s (.FileOpened (.ok (p, t)))).1.content = t ∧
    (update s (.FileOpened (.ok (p, t)))).1.saved = true ∧
    (update s (.FileOpened (.ok (p, t)))).1.error = s.error ∧
    (update s (.FileOpened (.ok (p, t)))).1.theme = s.theme ∧
    (update s (.FileOpened (.ok (p, t)))).2 = Cmd.none :=
  ⟨rfl, rfl, rfl, rfl, rfl, rfl⟩

/-- C3 counterexample: a state whose recorded error is DialogClosed still
shows the path text in the status line, against the claim that any error
kind's description replaces the path text. -/
theorem status_line_dialog_closed_cex :
    ({ content := ""
       error := some Error.DialogClosed
       path := some "/tmp/a.txt"
       saved := true
       theme := HTheme.SolarizedDark : Editor }).error = some Error.DialogClosed ∧
    statusString
      { content := ""
        error := some Error.DialogClosed
        path := some "/tmp/a.txt"
        saved := true
        theme := HTheme.SolarizedDark } = "/tmp/a.txt" :=
  ⟨rfl, rfl⟩

/-- C3 (amended): the status line shows an IOFailed error's description in
place of the path text; any other error state (DialogClosed) and the
no-error state show the path, or "New File" when path = None; in every case
" *" is appended exactly when saved = false. Any Edit clears the error, so
an IOFailed description persists only until the next edit action. -/
theorem status_line_spec (s : Editor) :
    statusString s =
      (match s.error with
       | some (.IOFailed k) => k.descr
       | _ =>
         match s.path with
         | some p => p
         | Option.none => "New File") ++
      (if s.saved then "" else " *") ∧
    (∀ a : Action, (update s (.Edit a)).1.error = Option.none) := by
  constructor
  · rcases s with ⟨c, e, p, sv, th⟩
    rcases e with _ | e
    · cases sv <;> rcases p with _ | p <;> simp [statusString]
    · cases e with
      | DialogClosed => cases sv <;> rcases p with _ | p <;> simp [statusString]
      | IOFailed k => cases sv <;> simp [statusString]
  · intro a
    rfl

/-- C4 counterexample: the startup document text is not empty (it is the
embedded source of main.rs), against the claim that the initial state has
empty document text. -/
theorem initial_content_cex : (Editor.new "d").1.content ≠ "" := by
  decide

/-- C4 (amended): the initial editor state has path = None, document text
equal to the build-time embedded contents of src/main.rs (not empty),
saved = true and error = None, and the single startup command is a load of
the fixed default file path formed from the build-time manifest directory. -/
theorem initial_state_spec (dir : String) :
    (Editor.new dir).1.path = Option.none ∧
    (Editor.new dir).1.content = mainRsSource ∧
    (Editor.new dir).1.saved = true ∧
    (Editor.new dir).1.error = Option.none ∧
    (Editor.new dir).1.theme = HTheme.SolarizedDark ∧
    (Editor.new dir).2 = Cmd.performLoadFile (default_file dir) :=
  ⟨rfl, rfl, rfl, rfl, rfl, rfl⟩

/-- C5: the save pipeline, given no path, asks the save-as dialog first
(the trace starts with the dialog event); on cancel it yields
FileSaved(Err(DialogClosed)) having attempted no write; otherwise it writes
the text to the chosen path and yields Ok(path) or Err(IOFailed kind); given
a path it writes directly with no dialog interaction; in every case it
feeds exactly one FileSaved message back; and the RequestSave transition
schedules the save of the current path and buffer text. -/
theorem save_pipeline_spec (g : Gateway) (text p : String) (s : Editor) :
    (save_file g Option.none text =
      match g.pickSave with
      | Option.none => (.error Error.DialogClosed, [GEvent.dialogAsked])
      | some q =>
        match g.writeRes q text with
        | .ok _ => (.ok q, [GEvent.dialogAsked, GEvent.wrote q text])
        | .error k =>
          (.error (.IOFailed k), [GEvent.dialogAsked, GEvent.wrote q text])) ∧
    ((save_file g Option.none text).2.any GEvent.isWrite = g.pickSave.isSome) ∧
    ((save_file g Option.none text).2.head? = some GEvent.dialogAsked) ∧
    (save_file g (some p) text =
      match g.writeRes p text with
      | .ok _ => (.ok p, [GEvent.wrote p text])
      | .error k => (.error (.IOFailed k), [GEvent.wrote p text])) ∧
    ((save_file g (some p) text).2.any (fun e => e = GEvent.dialogAsked) = false) ∧
    (∀ po : Option String,
      runSave g po text = [Message.FileSaved (save_file g po text).1] ∧
      (runSave g po text).length = 1) ∧
    (update s .Save = (s, Cmd.performSaveFile s.path s.content)) := by
  refine ⟨?_, ?_, ?_, ?_, ?_, fun po => ⟨rfl, rfl⟩, rfl⟩
  · rcases hg : g.pickSave with _ | q
    · simp [save_file, hg]
    · rcases hw : g.writeRes q text with _ | k <;> simp [save_file, hg, hw]
  · rcases hg : g.pickSave with _ | q
    · simp [save_file, hg, GEvent.isWrite]
    · rcases hw : g.writeRes q text with _ | k <;>
        simp [save_file, hg, hw, GEvent.isWrite]
  · rcases hg : g.pickSave with _ | q
    · simp [save_file, hg]
    · rcases hw : g.writeRes q text with _ | k <;> simp [save_file, hg, hw]
  · rcases hw : g.writeRes p text with _ | k <;> simp [save_file, hw]
  · rcases hw : g.writeRes p text with _ | k <;> simp [save_file, hw]

/-- C6: every Edit clears the error and schedules no command; the resulting
saved flag is false when the action is content-changing and the previous
value otherwise; the buffer receives the action and path/theme are
untouched. -/
theorem edit_spec (s : Editor) (a : Action) :
    (update s (.Edit a)).1.error = Option.none ∧
    (update s (.Edit a)).2 = Cmd.none ∧
    (update s (.Edit a)).1.saved = (if a.isEdit then false else s.saved) ∧
    (update s (.Edit a)).1.content = a.applyTo s.content ∧
    (update s (.Edit a)).1.path = s.path ∧
    (update s (.Edit a)).1.theme = s.theme :=
  ⟨rfl, rfl, rfl, rfl, rfl, rfl⟩

/-- C7: RequestNew always yields path = None, empty document text and
saved = false, schedules no command, and leaves error and theme as they
were. -/
theorem new_resets_spec (s : Editor) :
    (update s .New).1.path = Option.none ∧
    (update s .New).1.content = "" ∧
    (update s .New).1.saved = false ∧
    (update s .New).1.error = s.error ∧
    (update s .New).1.theme = s.theme ∧
    (update s .New).2 = Cmd.none :=
  ⟨rfl, rfl, rfl, rfl, rfl, rfl⟩

/-- C8: FileOpened(Err(DialogClosed)) leaves path, document text and saved
unchanged, sets error = Some DialogClosed, and schedules no command. -/
theorem dialog_closed_frame (s : Editor) :
    (update s (.FileOpened (.error Error.DialogClosed))).1.path = s.path ∧
    (update s (.FileOpened (.error Error.DialogClosed))).1.content = s.content ∧
    (update s (.FileOpened (.error Error.DialogClosed))).1.saved = s.saved ∧
    (update s (.FileOpened (.error Error.DialogClosed))).1.error =
      some Error.DialogClosed ∧
    (update s (.FileOpened (.error Error.DialogClosed))).2 = Cmd.none :=
  ⟨rfl, rfl, rfl, rfl, rfl⟩

/-- C9: selecting the same theme twice in a row yields exactly the state
(and command) that selecting it once yields. -/
theorem select_theme_idem (s : Editor) (t : HTheme) :
    update (update s (.NewTheme t)).1 (.NewTheme t) = update s (.NewTheme t) :=
  rfl

/-- C10: a successful save leaves the error field exactly as it was, so a
previously recorded error survives FileSaved(Ok); and no message other than
an Edit can clear a recorded error. -/
theorem save_ok_keeps_error (s : Editor) (p : String) :
    (update s (.FileSaved (.ok p))).1.error = s.error ∧
    (∀ e : Error, s.error = some e →
      (update s (.FileSaved (.ok p))).1.error = some e) ∧
    (∀ m : Message, m.isEditMsg = false →
      (update s m).1.error = Option.none → s.error = Option.none) := by
  refine ⟨rfl, fun e he => by simpa [update] using he, ?_⟩
  intro m hm he
  cases m with
  | Edit a => simp [Message.isEditMsg] at hm
  | Open => exact he
  | FileOpened r =>
    cases r with
    | ok v => simpa [update] using he
    | error e => simp [update] at he
  | New => exact he
  | Save => exact he
  | FileSaved r =>
    cases r with
    | ok q => simpa [update] using he
    | error e => simp [update] at he
  | NewTheme t => exact he

theorem save_ok_keeps_error_witness :
    ({ content := ""
       error := some (Error.IOFailed IOErrorKind.notFound)
       path := Option.none
       saved := false
       theme := HTheme.SolarizedDark : Editor }).error =
      some (Error.IOFailed IOErrorKind.notFound) ∧
    (update
        { content := ""
          error := some (Error.IOFailed IOErrorKind.notFound)
          path := Option.none
          saved := false
          theme := HTheme.SolarizedDark }
        (.FileSaved (.ok "/tmp/x.txt"))).1.error =
      some (Error.IOFailed IOErrorKind.notFound) :=
  ⟨rfl,
    (save_ok_keeps_error
      { content := ""
        error := some (Error.IOFailed IOErrorKind.notFound)
        path := Option.none
        saved := false
        theme := HTheme.SolarizedDark } "/tmp/x.txt").2.1
      (Error.IOFailed IOErrorKind.notFound) rfl⟩

end IcedTextEditor
